import Mathlib

/-!
Verification of the Bézier-curve extrusion core in `src/Main.py`
(`class BezierSurface`): the de Casteljau cubic evaluation
`bezier_point`, the extruded-surface evaluation `surface_point`, and the
constructor `__init__` (modelled as `BezierSurface.init`).

Machine floating-point numbers are embedded as real numbers; numpy
3-element arrays become the record `Vec3` with componentwise addition,
subtraction, scalar multiplication and scalar division, and
`np.linalg.norm` becomes the Euclidean norm `Vec3.norm`.
-/

/-- A 3-element numeric vector, modelling a numpy array of three floats
(a `Point3` position or `Vector3` direction). -/
@[ext] structure Vec3 where
  x : ℝ
  y : ℝ
  z : ℝ

namespace Vec3

/-- Componentwise addition, as numpy `+` on 3-element arrays. -/
instance : Add Vec3 where
  add a b := ⟨a.x + b.x, a.y + b.y, a.z + b.z⟩

/-- Componentwise subtraction, as numpy `-` on 3-element arrays. -/
instance : Sub Vec3 where
  sub a b := ⟨a.x - b.x, a.y - b.y, a.z - b.z⟩

/-- Scalar multiplication broadcast over the three components, as numpy
`scalar * array`. -/
instance : SMul ℝ Vec3 where
  smul c a := ⟨c * a.x, c * a.y, c * a.z⟩

@[simp] theorem add_x (a b : Vec3) : (a + b).x = a.x + b.x := rfl

@[simp] theorem add_y (a b : Vec3) : (a + b).y = a.y + b.y := rfl

@[simp] theorem add_z (a b : Vec3) : (a + b).z = a.z + b.z := rfl

@[simp] theorem sub_x (a b : Vec3) : (a - b).x = a.x - b.x := rfl

@[simp] theorem sub_y (a b : Vec3) : (a - b).y = a.y - b.y := rfl

@[simp] theorem sub_z (a b : Vec3) : (a - b).z = a.z - b.z := rfl

@[simp] theorem smul_x (c : ℝ) (a : Vec3) : (c • a).x = c * a.x := rfl

@[simp] theorem smul_y (c : ℝ) (a : Vec3) : (c • a).y = c * a.y := rfl

@[simp] theorem smul_z (c : ℝ) (a : Vec3) : (c • a).z = c * a.z := rfl

/-- Euclidean norm of a 3-element vector, modelling `np.linalg.norm`. -/
noncomputable def norm (v : Vec3) : ℝ :=
  Real.sqrt (v.x ^ 2 + v.y ^ 2 + v.z ^ 2)

/-- Division of a vector by a scalar, broadcast over the components,
modelling numpy `array / scalar`. -/
noncomputable def div (v : Vec3) (c : ℝ) : Vec3 :=
  ⟨v.x / c, v.y / c, v.z / c⟩

@[simp] theorem div_x (v : Vec3) (c : ℝ) : (v.div c).x = v.x / c := rfl

@[simp] theorem div_y (v : Vec3) (c : ℝ) : (v.div c).y = v.y / c := rfl

@[simp] theorem div_z (v : Vec3) (c : ℝ) : (v.div c).z = v.z / c := rfl

end Vec3

/-- State of a `BezierSurface` object from `src/Main.py`: the control
point sequence (stored as given, any length), the extrusion length
`delta`, the stored direction vector, and the default parameters
`u0`, `v0`. -/
structure BezierSurface where
  control_points : List Vec3
  delta : ℝ
  direction_vector : Vec3
  u0 : ℝ
  v0 : ℝ

namespace BezierSurface

/-- Translation of `BezierSurface.__init__` (src/Main.py lines 5-10).
The body stores `control_points`, `delta`, `u0`, `v0` as given and
stores `direction_vector / np.linalg.norm(direction_vector)`.  It
contains no validation and no raise statement (numpy division by a zero
norm only emits a warning), so the error channel is never used: the
result is always `Except.ok`. -/
noncomputable def init (control_points : List Vec3) (delta : ℝ)
    (direction_vector : Vec3) (u0 v0 : ℝ) : Except String BezierSurface :=
  Except.ok
    { control_points := control_points
      delta := delta
      direction_vector := direction_vector.div direction_vector.norm
      u0 := u0
      v0 := v0 }

/-- Translation of the static method `BezierSurface.bezier_point`
(src/Main.py lines 13-29): three-level de Casteljau interpolation on a
cubic Bézier curve. -/
def bezier_point (p0 p1 p2 p3 : Vec3) (u : ℝ) : Vec3 :=
  let p01 := (1 - u) • p0 + u • p1
  let p12 := (1 - u) • p1 + u • p2
  let p23 := (1 - u) • p2 + u • p3
  let p012 := (1 - u) • p01 + u • p12
  let p123 := (1 - u) • p12 + u • p23
  (1 - u) • p012 + u • p123

/-- Translation of `BezierSurface.surface_point` (src/Main.py lines
31-42): `bezier_point(*self.control_points, u) + v * delta * direction`.
The Python `*`-unpacking of `self.control_points` into the four
positional parameters of `bezier_point` raises a `TypeError` unless the
stored sequence has exactly 4 points; that failure is modelled by
`none`. -/
def surface_point (s : BezierSurface) (u v : ℝ) : Option Vec3 :=
  match s.control_points with
  | [p0, p1, p2, p3] =>
      some (bezier_point p0 p1 p2 p3 u + (v * s.delta) • s.direction_vector)
  | _ => none

/-- The cubic Bernstein-polynomial form of the curve,
`(1-u)^3 p0 + 3(1-u)^2 u p1 + 3(1-u) u^2 p2 + u^3 p3`; the
specification form that the de Casteljau computation refines. -/
def bernstein_point (p0 p1 p2 p3 : Vec3) (u : ℝ) : Vec3 :=
  ((1 - u) ^ 3) • p0 + (3 * (1 - u) ^ 2 * u) • p1 +
    (3 * (1 - u) * u ^ 2) • p2 + (u ^ 3) • p3

theorem bezier_point_x (p0 p1 p2 p3 : Vec3) (u : ℝ) :
    (bezier_point p0 p1 p2 p3 u).x =
      (1 - u) ^ 3 * p0.x + 3 * (1 - u) ^ 2 * u * p1.x +
        3 * (1 - u) * u ^ 2 * p2.x + u ^ 3 * p3.x := by
  simp only [bezier_point, Vec3.add_x, Vec3.smul_x]
  ring

theorem bezier_point_y (p0 p1 p2 p3 : Vec3) (u : ℝ) :
    (bezier_point p0 p1 p2 p3 u).y =
      (1 - u) ^ 3 * p0.y + 3 * (1 - u) ^ 2 * u * p1.y +
        3 * (1 - u) * u ^ 2 * p2.y + u ^ 3 * p3.y := by
  simp only [bezier_point, Vec3.add_y, Vec3.smul_y]
  ring

theorem bezier_point_z (p0 p1 p2 p3 : Vec3) (u : ℝ) :
    (bezier_point p0 p1 p2 p3 u).z =
      (1 - u) ^ 3 * p0.z + 3 * (1 - u) ^ 2 * u * p1.z +
        3 * (1 - u) * u ^ 2 * p2.z + u ^ 3 * p3.z := by
  simp only [bezier_point, Vec3.add_z, Vec3.smul_z]
  ring

end BezierSurface

/-- C1: for all control points, evaluating the cubic de Casteljau
computation at parameter 0 returns exactly `p0`, and at parameter 1
returns exactly `p3` (endpoint interpolation). -/
theorem C1_endpoint_interpolation (p0 p1 p2 p3 : Vec3) :
    BezierSurface.bezier_point p0 p1 p2 p3 0 = p0 ∧
      BezierSurface.bezier_point p0 p1 p2 p3 1 = p3 := by
  constructor <;> ext <;>
    simp only [BezierSurface.bezier_point_x, BezierSurface.bezier_point_y,
      BezierSurface.bezier_point_z] <;> ring

/-- C10: for all control points and every real parameter, the
three-level de Casteljau computation of `bezier_point` equals the cubic
Bernstein polynomial form, component-wise. -/
theorem C10_de_casteljau_eq_bernstein (p0 p1 p2 p3 : Vec3) (u : ℝ) :
    BezierSurface.bezier_point p0 p1 p2 p3 u =
      BezierSurface.bernstein_point p0 p1 p2 p3 u := by
  ext <;>
    simp only [BezierSurface.bezier_point_x, BezierSurface.bezier_point_y,
      BezierSurface.bezier_point_z, BezierSurface.bernstein_point,
      Vec3.add_x, Vec3.add_y, Vec3.add_z, Vec3.smul_x, Vec3.smul_y,
      Vec3.smul_z] <;> ring

/-- C4: evaluating the curve on the reversed control polygon at the
reversed parameter gives the same point:
`bezier_point p0 p1 p2 p3 u = bezier_point p3 p2 p1 p0 (1 - u)`. -/
theorem C4_symmetry (p0 p1 p2 p3 : Vec3) (u : ℝ) :
    BezierSurface.bezier_point p0 p1 p2 p3 u =
      BezierSurface.bezier_point p3 p2 p1 p0 (1 - u) := by
  ext <;>
    simp only [BezierSurface.bezier_point_x, BezierSurface.bezier_point_y,
      BezierSurface.bezier_point_z] <;> ring

/-- C2: for a surface whose stored control-point sequence is
`[p0, p1, p2, p3]`, evaluating at `v = 0` reproduces the base curve
point: `surface_point u 0 = bezier_point p0 p1 p2 p3 u`. -/
theorem C2_v_zero_reproduces_curve (s : BezierSurface) (p0 p1 p2 p3 : Vec3)
    (h : s.control_points = [p0, p1, p2, p3]) (u : ℝ) :
    s.surface_point u 0 = some (BezierSurface.bezier_point p0 p1 p2 p3 u) := by
  simp only [BezierSurface.surface_point, h]
  congr 1
  ext <;> simp

/-- A concrete validly-constructed surface state used by witnesses: the
control points `(0,0,0),(1,2,0),(2,2,0),(3,0,0)`, `delta = 2`, the unit
direction `(0,0,1)`, `u0 = 1/2`, `v0 = 1`. -/
noncomputable def sampleSurface : BezierSurface :=
  { control_points := [⟨0, 0, 0⟩, ⟨1, 2, 0⟩, ⟨2, 2, 0⟩, ⟨3, 0, 0⟩]
    delta := 2
    direction_vector := ⟨0, 0, 1⟩
    u0 := 1 / 2
    v0 := 1 }

/-- Witness for C2 at a concrete surface and parameter. -/
theorem C2_v_zero_reproduces_curve_witness :
    sampleSurface.control_points = [⟨0, 0, 0⟩, ⟨1, 2, 0⟩, ⟨2, 2, 0⟩, ⟨3, 0, 0⟩] ∧
      sampleSurface.surface_point (1 / 3) 0 =
        some (BezierSurface.bezier_point ⟨0, 0, 0⟩ ⟨1, 2, 0⟩ ⟨2, 2, 0⟩ ⟨3, 0, 0⟩ (1 / 3)) :=
  ⟨rfl, C2_v_zero_reproduces_curve sampleSurface _ _ _ _ rfl (1 / 3)⟩

/-- C3: for a surface whose stored control-point sequence is
`[p0, p1, p2, p3]`, the surface is affine-linear in `v`:
`surface_point u v2 - surface_point u v1 = ((v2 - v1) * delta) • direction`. -/
theorem C3_linearity_in_v (s : BezierSurface) (p0 p1 p2 p3 : Vec3)
    (h : s.control_points = [p0, p1, p2, p3]) (u v1 v2 : ℝ) :
    ∃ q1 q2, s.surface_point u v1 = some q1 ∧ s.surface_point u v2 = some q2 ∧
      q2 - q1 = ((v2 - v1) * s.delta) • s.direction_vector := by
  refine ⟨BezierSurface.bezier_point p0 p1 p2 p3 u + (v1 * s.delta) • s.direction_vector,
    BezierSurface.bezier_point p0 p1 p2 p3 u + (v2 * s.delta) • s.direction_vector,
    ?_, ?_, ?_⟩
  · simp only [BezierSurface.surface_point, h]
  · simp only [BezierSurface.surface_point, h]
  · ext <;> simp <;> ring

/-- Witness for C3 at a concrete surface and parameters. -/
theorem C3_linearity_in_v_witness :
    sampleSurface.control_points = [⟨0, 0, 0⟩, ⟨1, 2, 0⟩, ⟨2, 2, 0⟩, ⟨3, 0, 0⟩] ∧
      (∃ q1 q2, sampleSurface.surface_point (1 / 3) 0 = some q1 ∧
        sampleSurface.surface_point (1 / 3) 2 = some q2 ∧
        q2 - q1 = ((2 - 0) * sampleSurface.delta) • sampleSurface.direction_vector) :=
  ⟨rfl, C3_linearity_in_v sampleSurface _ _ _ _ rfl (1 / 3) 0 2⟩

/-- Any value of the cubic Bernstein combination at `u` in `[0,1]` lies
between the minimum and the maximum of the four coefficients. -/
theorem bernstein_convex_bound (a b c d u : ℝ) (h0 : 0 ≤ u) (h1 : u ≤ 1) :
    min (min (min a b) c) d ≤
        (1 - u) ^ 3 * a + 3 * (1 - u) ^ 2 * u * b +
          3 * (1 - u) * u ^ 2 * c + u ^ 3 * d ∧
      (1 - u) ^ 3 * a + 3 * (1 - u) ^ 2 * u * b +
          3 * (1 - u) * u ^ 2 * c + u ^ 3 * d ≤
        max (max (max a b) c) d := by
  have hu : 0 ≤ 1 - u := by linarith
  have w1 : 0 ≤ (1 - u) ^ 3 := pow_nonneg hu 3
  have w2 : 0 ≤ 3 * (1 - u) ^ 2 * u :=
    mul_nonneg (mul_nonneg (by norm_num) (sq_nonneg _)) h0
  have w3 : 0 ≤ 3 * (1 - u) * u ^ 2 :=
    mul_nonneg (mul_nonneg (by norm_num) hu) (sq_nonneg _)
  have w4 : 0 ≤ u ^ 3 := pow_nonneg h0 3
  have hma : min (min (min a b) c) d ≤ a :=
    ((min_le_left _ _).trans (min_le_left _ _)).trans (min_le_left _ _)
  have hmb : min (min (min a b) c) d ≤ b :=
    ((min_le_left _ _).trans (min_le_left _ _)).trans (min_le_right _ _)
  have hmc : min (min (min a b) c) d ≤ c :=
    (min_le_left _ _).trans (min_le_right _ _)
  have hmd : min (min (min a b) c) d ≤ d := min_le_right _ _
  have hMa : a ≤ max (max (max a b) c) d :=
    ((le_max_left _ _).trans (le_max_left _ _)).trans (le_max_left _ _)
  have hMb : b ≤ max (max (max a b) c) d :=
    ((le_max_right _ _).trans (le_max_left _ _)).trans (le_max_left _ _)
  have hMc : c ≤ max (max (max a b) c) d :=
    (le_max_right _ _).trans (le_max_left _ _)
  have hMd : d ≤ max (max (max a b) c) d := le_max_right _ _
  constructor
  · nlinarith [mul_nonneg w1 (sub_nonneg.mpr hma), mul_nonneg w2 (sub_nonneg.mpr hmb),
      mul_nonneg w3 (sub_nonneg.mpr hmc), mul_nonneg w4 (sub_nonneg.mpr hmd)]
  · nlinarith [mul_nonneg w1 (sub_nonneg.mpr hMa), mul_nonneg w2 (sub_nonneg.mpr hMb),
      mul_nonneg w3 (sub_nonneg.mpr hMc), mul_nonneg w4 (sub_nonneg.mpr hMd)]

/-- C5: for `u` in `[0,1]`, each coordinate of the de Casteljau result
lies between the minimum and the maximum of the corresponding
coordinates of the four control points (convex-hull property). -/
theorem C5_convex_hull (p0 p1 p2 p3 : Vec3) (u : ℝ) (h0 : 0 ≤ u) (h1 : u ≤ 1) :
    (min (min (min p0.x p1.x) p2.x) p3.x ≤ (BezierSurface.bezier_point p0 p1 p2 p3 u).x ∧
        (BezierSurface.bezier_point p0 p1 p2 p3 u).x ≤ max (max (max p0.x p1.x) p2.x) p3.x) ∧
      (min (min (min p0.y p1.y) p2.y) p3.y ≤ (BezierSurface.bezier_point p0 p1 p2 p3 u).y ∧
        (BezierSurface.bezier_point p0 p1 p2 p3 u).y ≤ max (max (max p0.y p1.y) p2.y) p3.y) ∧
      (min (min (min p0.z p1.z) p2.z) p3.z ≤ (BezierSurface.bezier_point p0 p1 p2 p3 u).z ∧
        (BezierSurface.bezier_point p0 p1 p2 p3 u).z ≤ max (max (max p0.z p1.z) p2.z) p3.z) := by
  refine ⟨?_, ?_, ?_⟩
  · rw [BezierSurface.bezier_point_x]
    exact bernstein_convex_bound p0.x p1.x p2.x p3.x u h0 h1
  · rw [BezierSurface.bezier_point_y]
    exact bernstein_convex_bound p0.y p1.y p2.y p3.y u h0 h1
  · rw [BezierSurface.bezier_point_z]
    exact bernstein_convex_bound p0.z p1.z p2.z p3.z u h0 h1

/-- Witness for C5 at concrete control points and `u = 1/2`. -/
theorem C5_convex_hull_witness :
    (0 : ℝ) ≤ 1 / 2 ∧ (1 / 2 : ℝ) ≤ 1 ∧
      ((min (min (min (Vec3.mk 0 0 0).x (Vec3.mk 1 2 0).x) (Vec3.mk 2 2 0).x) (Vec3.mk 3 0 0).x ≤
            (BezierSurface.bezier_point ⟨0, 0, 0⟩ ⟨1, 2, 0⟩ ⟨2, 2, 0⟩ ⟨3, 0, 0⟩ (1 / 2)).x ∧
          (BezierSurface.bezier_point ⟨0, 0, 0⟩ ⟨1, 2, 0⟩ ⟨2, 2, 0⟩ ⟨3, 0, 0⟩ (1 / 2)).x ≤
            max (max (max (Vec3.mk 0 0 0).x (Vec3.mk 1 2 0).x) (Vec3.mk 2 2 0).x) (Vec3.mk 3 0 0).x) ∧
        (min (min (min (Vec3.mk 0 0 0).y (Vec3.mk 1 2 0).y) (Vec3.mk 2 2 0).y) (Vec3.mk 3 0 0).y ≤
            (BezierSurface.bezier_point ⟨0, 0, 0⟩ ⟨1, 2, 0⟩ ⟨2, 2, 0⟩ ⟨3, 0, 0⟩ (1 / 2)).y ∧
          (BezierSurface.bezier_point ⟨0, 0, 0⟩ ⟨1, 2, 0⟩ ⟨2, 2, 0⟩ ⟨3, 0, 0⟩ (1 / 2)).y ≤
            max (max (max (Vec3.mk 0 0 0).y (Vec3.mk 1 2 0).y) (Vec3.mk 2 2 0).y) (Vec3.mk 3 0 0).y) ∧
        (min (min (min (Vec3.mk 0 0 0).z (Vec3.mk 1 2 0).z) (Vec3.mk 2 2 0).z) (Vec3.mk 3 0 0).z ≤
            (BezierSurface.bezier_point ⟨0, 0, 0⟩ ⟨1, 2, 0⟩ ⟨2, 2, 0⟩ ⟨3, 0, 0⟩ (1 / 2)).z ∧
          (BezierSurface.bezier_point ⟨0, 0, 0⟩ ⟨1, 2, 0⟩ ⟨2, 2, 0⟩ ⟨3, 0, 0⟩ (1 / 2)).z ≤
            max (max (max (Vec3.mk 0 0 0).z (Vec3.mk 1 2 0).z) (Vec3.mk 2 2 0).z) (Vec3.mk 3 0 0).z)) :=
  ⟨by norm_num, by norm_num,
    C5_convex_hull ⟨0, 0, 0⟩ ⟨1, 2, 0⟩ ⟨2, 2, 0⟩ ⟨3, 0, 0⟩ (1 / 2) (by norm_num) (by norm_num)⟩

/-- C6: for every input direction of non-zero norm, the direction the
constructor stores has Euclidean norm exactly 1 and is a positive scalar
multiple of the input (it points along the same ray).  The object is
immutable in the embedding — `surface_point` reads the state without
modifying it — so the invariant persists across all evaluations. -/
theorem C6_direction_normalized (cps : List Vec3) (delta : ℝ) (d : Vec3)
    (u0 v0 : ℝ) (s : BezierSurface) (hd : d.norm ≠ 0)
    (hs : BezierSurface.init cps delta d u0 v0 = Except.ok s) :
    s.direction_vector.norm = 1 ∧ ∃ c : ℝ, 0 < c ∧ s.direction_vector = c • d := by
  simp only [BezierSurface.init, Except.ok.injEq] at hs
  subst hs
  have hn : 0 < d.norm := lt_of_le_of_ne (Real.sqrt_nonneg _) (Ne.symm hd)
  have hsq : d.norm ^ 2 = d.x ^ 2 + d.y ^ 2 + d.z ^ 2 :=
    Real.sq_sqrt (by positivity)
  constructor
  · show (d.div d.norm).norm = 1
    set n := d.norm with hn_def
    have hn0 : n ≠ 0 := ne_of_gt hn
    have h1 : (d.x / n) ^ 2 + (d.y / n) ^ 2 + (d.z / n) ^ 2 = 1 := by
      field_simp
      linarith [hsq]
    simp only [Vec3.norm, Vec3.div_x, Vec3.div_y, Vec3.div_z, h1]
    exact Real.sqrt_one
  · refine ⟨(d.norm)⁻¹, inv_pos.mpr hn, ?_⟩
    ext <;> simp [Vec3.div] <;> ring

/-- Witness for C6: the raw direction `(0,0,5)` has non-zero norm, and
the stored normalized direction satisfies the invariant. -/
theorem C6_direction_normalized_witness :
    Vec3.norm ⟨0, 0, 5⟩ ≠ 0 ∧
      (Vec3.div ⟨0, 0, 5⟩ (Vec3.norm ⟨0, 0, 5⟩)).norm = 1 ∧
        ∃ c : ℝ, 0 < c ∧
          Vec3.div ⟨0, 0, 5⟩ (Vec3.norm ⟨0, 0, 5⟩) = c • (⟨0, 0, 5⟩ : Vec3) := by
  have hd : Vec3.norm ⟨0, 0, 5⟩ ≠ 0 := by
    simp only [Vec3.norm]
    refine ne_of_gt (Real.sqrt_pos.mpr ?_)
    norm_num
  exact ⟨hd, C6_direction_normalized [] 0 ⟨0, 0, 5⟩ 0 0
    ⟨[], 0, Vec3.div ⟨0, 0, 5⟩ (Vec3.norm ⟨0, 0, 5⟩), 0, 0⟩ hd rfl⟩

/-- C7: the constructor performs no validation, so a zero-norm direction
does not raise: construction at the failing input succeeds, contradicting
the claim that it fails with an InvalidArgument error. -/
theorem C7_zero_direction_constructs :
    ∃ s, BezierSurface.init [⟨0, 0, 0⟩, ⟨1, 2, 0⟩, ⟨2, 2, 0⟩, ⟨3, 0, 0⟩] 2
      ⟨0, 0, 0⟩ (1 / 2) 1 = Except.ok s :=
  ⟨_, rfl⟩

/-- Counterexample to C8 as stated: constructing with only 3 control
points succeeds (no InvalidArgument error is raised). -/
theorem C8_counterexample :
    ∃ s, BezierSurface.init [⟨0, 0, 0⟩, ⟨1, 2, 0⟩, ⟨2, 2, 0⟩] 2 ⟨0, 0, 1⟩ 0 0 =
      Except.ok s :=
  ⟨_, rfl⟩

/-- C8 (amended): the constructor performs no validation — with any
control-point sequence it succeeds, storing the arguments as given (the
direction divided by its norm); when the sequence does not have exactly
4 points, the failure only surfaces later, at evaluation time, where
`surface_point` cannot unpack the sequence. -/
theorem C8_no_constructor_validation (cps : List Vec3) (delta : ℝ) (d : Vec3)
    (u0 v0 : ℝ) (h : cps.length ≠ 4) :
    BezierSurface.init cps delta d u0 v0 =
        Except.ok ⟨cps, delta, d.div d.norm, u0, v0⟩ ∧
      ∀ u v, BezierSurface.surface_point ⟨cps, delta, d.div d.norm, u0, v0⟩ u v = none := by
  refine ⟨rfl, ?_⟩
  intro u v
  rcases cps with _ | ⟨a, _ | ⟨b, _ | ⟨c, _ | ⟨e, _ | ⟨f, t⟩⟩⟩⟩⟩
  · rfl
  · rfl
  · rfl
  · rfl
  · simp at h
  · rfl

/-- Witness for C8 (amended) at a 3-element control-point sequence. -/
theorem C8_no_constructor_validation_witness :
    ([(⟨0, 0, 0⟩ : Vec3), ⟨1, 2, 0⟩, ⟨2, 2, 0⟩] : List Vec3).length ≠ 4 ∧
      (BezierSurface.init [⟨0, 0, 0⟩, ⟨1, 2, 0⟩, ⟨2, 2, 0⟩] 2 ⟨0, 0, 1⟩ 0 0 =
          Except.ok ⟨[⟨0, 0, 0⟩, ⟨1, 2, 0⟩, ⟨2, 2, 0⟩], 2,
            Vec3.div ⟨0, 0, 1⟩ (Vec3.norm ⟨0, 0, 1⟩), 0, 0⟩ ∧
        ∀ u v, BezierSurface.surface_point
          ⟨[⟨0, 0, 0⟩, ⟨1, 2, 0⟩, ⟨2, 2, 0⟩], 2,
            Vec3.div ⟨0, 0, 1⟩ (Vec3.norm ⟨0, 0, 1⟩), 0, 0⟩ u v = none) :=
  ⟨by simp, C8_no_constructor_validation _ 2 _ 0 0 (by simp)⟩

/-- C9: the concrete scenario — control points
`(0,0,0),(1,2,0),(2,2,0),(3,0,0)`, `delta = 2`, raw direction `(0,0,5)`
(normalizing to `(0,0,1)`), `u0 = 1/2`, `v0 = 1` — yields
`surface_point 0 0 = (0,0,0)`, `surface_point 1 0 = (3,0,0)` and
`surface_point (1/2) 1 = (1.5, 1.5, 2)`. -/
theorem C9_concrete_scenario :
    (BezierSurface.init [⟨0, 0, 0⟩, ⟨1, 2, 0⟩, ⟨2, 2, 0⟩, ⟨3, 0, 0⟩] 2 ⟨0, 0, 5⟩
        (1 / 2) 1).map
      (fun s => (s.surface_point 0 0, s.surface_point 1 0, s.surface_point (1 / 2) 1)) =
    Except.ok (some ⟨0, 0, 0⟩, some ⟨3, 0, 0⟩, some ⟨1.5, 1.5, 2⟩) := by
  have h25 : Real.sqrt ((0 : ℝ) ^ 2 + 0 ^ 2 + 5 ^ 2) = 5 := by
    rw [show ((0 : ℝ) ^ 2 + 0 ^ 2 + 5 ^ 2) = 5 ^ 2 by norm_num]
    exact Real.sqrt_sq (by norm_num)
  simp only [BezierSurface.init, Except.map, BezierSurface.surface_point,
    Vec3.norm, Vec3.div, h25]
  norm_num [BezierSurface.bezier_point, Prod.ext_iff, Option.some.injEq, Vec3.ext_iff]
